import Mathlib

/-!
Shallow embedding of the SmartEditor continuation core:
the continuation service (`server/lib/gemini.ts`), the HTTP route
(`server/routes.ts`, `registerRoutes`), the XState orchestration machine
(`client/src/lib/editorMachine.ts`) and the draft-deletion handler of the
editor page (`client/src/pages/Editor.tsx`).

Strings are modelled as Lean `String`; JavaScript `String.prototype.trim`
is modelled by the structural `jsTrim` below (JS trims the full Unicode
whitespace class; `Char.isWhitespace` covers the ASCII subset, which is
all the claims exercise). Thrown `Error(msg)` values are modelled as
`Except.error msg`; provider adapters are an explicit record of functions
from a prompt to a result, so a call that never consults the record is a
call that never reaches the network.
-/

/-- Model of JavaScript `String.prototype.trim`: drop whitespace from both
ends of the character list. -/
def jsTrim (s : String) : String :=
  ⟨((s.data.dropWhile Char.isWhitespace).reverse.dropWhile Char.isWhitespace).reverse⟩

/-- Whether `pat` occurs as a contiguous run inside `l`; models
JavaScript `String.prototype.includes` at the character-list level. -/
def containsSub (l pat : List Char) : Bool :=
  pat.isPrefixOf l ||
    (match l with
     | [] => false
     | _ :: t => containsSub t pat)

/-- Model of JavaScript `msg.includes(pat)`. -/
def strContains (s pat : String) : Bool := containsSub s.data pat.data

/-! ## Continuation Service (`server/lib/gemini.ts`) -/

/-- The fixed instructional prompt template of `continueWriting`
(gemini.ts lines 22-24). -/
def mkPrompt (text : String) : String :=
  "Continue the following text with 2-3 sentences that match the tone and style:\n\n" ++ text

/-- The three provider adapters (`generateWithGemini`, `generateWithOpenAI`,
`generateWithMistral`) as an explicit environment: each maps a prompt to a
continuation or a thrown error message. -/
structure Adapters where
  gemini : String → Except String String
  openai : String → Except String String
  mistral : String → Except String String

/-- The provider `switch` of `continueWriting` (gemini.ts lines 28-40):
dispatch to the adapter matching the provider id, the `default` arm throws
the unsupported-provider error. -/
def dispatch (adapters : Adapters) (provider prompt : String) : Except String String :=
  match provider with
  | "gemini" => adapters.gemini prompt
  | "openai" => adapters.openai prompt
  | "mistral" => adapters.mistral prompt
  | _ => Except.error ("Unsupported AI provider: " ++ provider)

/-- The punctuation set of the regex `/^[.,;:!?]/` (gemini.ts line 47). -/
def punctuationChars : List Char := ['.', ',', ';', ':', '!', '?']

/-- Whether the string starts with one of the fixed punctuation characters,
the test `/^[.,;:!?]/.test(continuation)`. -/
def startsWithPunct (s : String) : Bool :=
  match s.data with
  | [] => false
  | c :: _ => punctuationChars.contains c

/-- The space-insertion post-processing of `continueWriting`
(gemini.ts lines 46-48): `needsSpace = continuation && !/^[.,;:!?]/.test(continuation)`,
then prefix one space when `needsSpace`. -/
def postProcess (continuation : String) : String :=
  if (continuation != "") && !startsWithPunct continuation then " " ++ continuation
  else continuation

/-- The `catch` block of `continueWriting` (gemini.ts lines 53-66):
re-express a thrown message by substring inspection; the credential check
comes first, then quota, then rate limit, else the generic wrapper. -/
def classifyError (provider msg : String) : String :=
  if strContains msg "API key" || strContains msg "API_KEY" then
    "Invalid or missing " ++ provider ++ " API key"
  else if strContains msg "quota" then
    "API quota exceeded. Please try again later"
  else if strContains msg "rate limit" then
    "Rate limit exceeded. Please wait a moment"
  else
    "AI generation failed: " ++ msg

/-- The `try` body of `continueWriting` (gemini.ts lines 16-48): reject
blank input (`!text || text.trim().length === 0` collapses to the trim
test, since the empty string also trims to length 0), dispatch on the
provider, reject an empty continuation, post-process. -/
def continueWritingAttempt (adapters : Adapters) (text provider : String) :
    Except String String :=
  if (jsTrim text).length = 0 then
    Except.error "Cannot generate continuation for empty text"
  else
    match dispatch adapters provider (mkPrompt text) with
    | Except.error e => Except.error e
    | Except.ok continuation =>
      if continuation = "" then
        Except.error "No text generated from AI model. The AI may have returned only thoughts without actual content."
      else
        Except.ok (postProcess continuation)

/-- The whole of `continueWriting` (gemini.ts lines 15-70): the `try` body
with every thrown message routed through the `catch` classifier. The
`provider` parameter defaults to `"gemini"` exactly as in the source. -/
def continueWriting (adapters : Adapters) (text : String)
    (provider : String := "gemini") : Except String String :=
  match continueWritingAttempt adapters text provider with
  | Except.ok r => Except.ok r
  | Except.error msg => Except.error (classifyError provider msg)

/-! ## HTTP route (`server/routes.ts`, `registerRoutes`) -/

/-- The parsed request body of `/api/continue-writing`. -/
structure RequestBody where
  text : String
  provider : Option String

/-- The provider enumeration of `continueWritingRequestSchema`
(shared/schema.ts lines 4-7). -/
def knownProviders : List String := ["gemini", "openai", "mistral"]

/-- Model of `continueWritingRequestSchema.safeParse`: `text` must have
length at least 1, `provider` is optional with default `"gemini"` and must
otherwise belong to the enumeration. -/
def schemaParse (body : RequestBody) : Except String (String × String) :=
  if body.text.length ≥ 1 then
    match body.provider with
    | none => Except.ok (body.text, "gemini")
    | some p =>
      if knownProviders.contains p then Except.ok (body.text, p)
      else Except.error "Invalid request"
  else
    Except.error "Invalid request"

/-- The `/api/continue-writing` handler installed by `registerRoutes`:
validate the body, then `const { text } = validation.data;` and call
`continueWriting(text)` — the handler destructures only `text`, so the
validated provider is dropped and the default provider argument applies. -/
def routeContinueWriting (adapters : Adapters) (body : RequestBody) :
    Except String String :=
  match schemaParse body with
  | Except.error e => Except.error e
  | Except.ok (text, _provider) => continueWriting adapters text

/-! ## Orchestration state machine (`client/src/lib/editorMachine.ts`) -/

/-- The `AIProvider` enumeration of shared/schema.ts. -/
inductive AIProvider
  | gemini
  | openai
  | mistral
  deriving DecidableEq, Repr

/-- The `EditorContext` of shared/schema.ts, with `number | null`
timestamps as `Option Nat` and `string | null` as `Option String`. -/
structure EditorContext where
  editorContent : String
  aiGeneratedText : String
  error : Option String
  lastRequestTime : Option Nat
  savedDocuments : List String
  aiProvider : AIProvider
  deriving DecidableEq, Repr

/-- The three states of `editorMachine`: `idle`, `loadingAI`, `error`. -/
inductive MachineState
  | idle
  | loadingAI
  | error
  deriving DecidableEq, Repr

/-- The `EditorEvent` union of shared/schema.ts, plus `afterDelay ms`
modelling the firing of the machine's delayed transition (`after: 5000`
in the `error` state): XState starts the timer on entry to `error` and
cancels it on exit, so the firing can only have an effect while the
machine is still in `error` — which is exactly how `step` treats it. -/
inductive EditorEvent
  | continueWriting
  | aiSuccess (data : String)
  | aiError (error : String)
  | clearError
  | updateContent (content : String)
  | saveDocument (content : String)
  | hydrateSaved (documents : List String)
  | deleteDocument (index : Nat)
  | switchAIProvider (provider : AIProvider)
  | afterDelay (ms : Nat)
  deriving DecidableEq, Repr

/-- The `DELETE_DOCUMENT` action
`savedDocuments.filter((_, idx) => idx !== event.index)`: keep exactly the
positions different from `index`. -/
def removeIdx (l : List String) (index : Nat) : List String :=
  (l.enum.filter (fun p => p.1 ≠ index)).map (·.2)

/-- One transition of `editorMachine`. The first five events are the
root-level (`on:`) handlers, available in every state and leaving the
state unchanged; the rest are the per-state handlers; an event a state
does not handle is ignored (XState drops it). `now` supplies `Date.now()`
for the `lastRequestTime` assignments. -/
def step (now : Nat) (s : MachineState) (ctx : EditorContext) :
    EditorEvent → MachineState × EditorContext
  | .updateContent content => (s, { ctx with editorContent := content })
  | .saveDocument content =>
      (s, { ctx with
              savedDocuments :=
                if (jsTrim content).length ≠ 0 then ctx.savedDocuments ++ [content]
                else ctx.savedDocuments,
              editorContent := "" })
  | .hydrateSaved documents => (s, { ctx with savedDocuments := documents })
  | .switchAIProvider provider => (s, { ctx with aiProvider := provider })
  | .deleteDocument index =>
      (s, { ctx with savedDocuments := removeIdx ctx.savedDocuments index })
  | .continueWriting =>
      match s with
      | .idle =>
          if (jsTrim ctx.editorContent).length > 0 then (.loadingAI, ctx) else (s, ctx)
      | .error =>
          if (jsTrim ctx.editorContent).length > 0 then (.loadingAI, ctx) else (s, ctx)
      | .loadingAI => (s, ctx)
  | .aiSuccess data =>
      match s with
      | .loadingAI =>
          (.idle, { ctx with aiGeneratedText := data, error := none,
                             lastRequestTime := some now })
      | _ => (s, ctx)
  | .aiError e =>
      match s with
      | .loadingAI => (.error, { ctx with error := some e, lastRequestTime := some now })
      | _ => (s, ctx)
  | .clearError =>
      match s with
      | .error => (.idle, { ctx with error := none })
      | _ => (s, ctx)
  | .afterDelay ms =>
      match s with
      | .error => if ms = 5000 then (.idle, { ctx with error := none }) else (s, ctx)
      | _ => (s, ctx)

/-- The initial context of `editorMachine` (editorMachine.ts lines 11-18). -/
def initialContext : EditorContext :=
  { editorContent := ""
    aiGeneratedText := ""
    error := none
    lastRequestTime := none
    savedDocuments := []
    aiProvider := AIProvider.gemini }

/-- Run the machine from a given configuration over a list of timestamped
events. -/
def runFrom (s : MachineState) (ctx : EditorContext) :
    List (Nat × EditorEvent) → MachineState × EditorContext
  | [] => (s, ctx)
  | (now, e) :: rest => (runFrom (step now s ctx e).1 (step now s ctx e).2 rest)

/-- Run the machine from its initial configuration (`initial: "idle"`). -/
def run (events : List (Nat × EditorEvent)) : MachineState × EditorContext :=
  runFrom MachineState.idle initialContext events

/-- The context reached by a sequence of save-as-new events
(`SAVE_DOCUMENT`) from the initial context. -/
def runSaves (contents : List String) : EditorContext :=
  contents.foldl
    (fun ctx c => (step 0 MachineState.idle ctx (EditorEvent.saveDocument c)).2)
    initialContext

/-! ## Draft deletion (`client/src/pages/Editor.tsx`, `handleDeleteSaved`) -/

/-- The active-index adjustment of `handleDeleteSaved` (Editor.tsx lines
147-154): delete at the active index clears it, below decrements it,
above (or a null active index) leaves it alone. -/
def adjustActiveIndex (active : Option Nat) (index : Nat) : Option Nat :=
  match active with
  | none => none
  | some a => if index = a then none else if index < a then some (a - 1) else some a

/-- The whole of `handleDeleteSaved`: adjust the active index, then send
`DELETE_DOCUMENT index`, whose action removes position `index` from the
draft list. -/
def handleDeleteSaved (docs : List String) (active : Option Nat) (index : Nat) :
    List String × Option Nat :=
  (removeIdx docs index, adjustActiveIndex active index)

/-! ## Helper lemmas -/

/-- Filtering an enumerated list on positions different from `j` and
projecting the elements erases position `j` (shifted by the enumeration
start `n`). -/
theorem enumFrom_filter_ne (l : List String) (n j : Nat) :
    ((List.enumFrom n l).filter (fun p => p.1 ≠ j)).map Prod.snd =
      if j < n then l else l.eraseIdx (j - n) := by
  induction l generalizing n with
  | nil => simp
  | cons a t ih =>
    rw [List.enumFrom, List.filter_cons]
    rcases Nat.lt_trichotomy j n with h | h | h
    · have hd : (decide ((n, a).1 ≠ j)) = true := by
        rw [decide_eq_true_eq]
        show ¬ n = j
        omega
      rw [hd, if_pos rfl]
      simp only [List.map_cons, ih (n + 1)]
      rw [if_pos (by omega : j < n + 1), if_pos h]
    · subst h
      have hd : (decide ((j, a).1 ≠ j)) = false := by
        rw [decide_eq_false_iff_not]
        show ¬ ¬ j = j
        simp
      rw [hd, if_neg Bool.false_ne_true]
      rw [ih (j + 1), if_pos (by omega : j < j + 1), if_neg (by omega : ¬ j < j)]
      simp
    · have hd : (decide ((n, a).1 ≠ j)) = true := by
        rw [decide_eq_true_eq]
        show ¬ n = j
        omega
      rw [hd, if_pos rfl]
      simp only [List.map_cons, ih (n + 1)]
      rw [if_neg (by omega : ¬ j < n + 1), if_neg (by omega : ¬ j < n)]
      have hjn : j - n = (j - (n + 1)) + 1 := by omega
      rw [hjn]
      simp [List.eraseIdx_cons_succ]

/-- The positional filter of `DELETE_DOCUMENT` is erasure at the index. -/
theorem removeIdx_eq_eraseIdx (l : List String) (j : Nat) :
    removeIdx l j = l.eraseIdx j := by
  have h := enumFrom_filter_ne l 0 j
  rw [if_neg (by omega : ¬ j < 0), Nat.sub_zero] at h
  simpa [removeIdx, List.enum] using h

/-- Probe adapters that each return a tag naming the vendor, used to
observe which adapter a call is dispatched to. -/
def probeAdapters : Adapters :=
  { gemini := fun _ => Except.ok "from-gemini"
    openai := fun _ => Except.ok "from-openai"
    mistral := fun _ => Except.ok "from-mistral" }

/-- Adapters that all fail, used to observe whether a call consults the
adapter environment at all. -/
def offlineAdapters : Adapters :=
  { gemini := fun _ => Except.error "network down"
    openai := fun _ => Except.error "network down"
    mistral := fun _ => Except.error "network down" }

/-! ## Claims -/

/-- C1: `continueWriting` itself dispatches to exactly the adapter
matching the provider id and fails on an unrecognized id, but the HTTP
route destructures only `text` from the validated body and calls
`continueWriting(text)`, so a request with provider `openai` or `mistral`
is served by the default gemini adapter — the code drops the provider on
the route path, contradicting the claim and the repository README. -/
theorem C1_route_uses_default_adapter :
    continueWriting probeAdapters "Hello" "gemini" = Except.ok " from-gemini" ∧
    continueWriting probeAdapters "Hello" "openai" = Except.ok " from-openai" ∧
    continueWriting probeAdapters "Hello" "mistral" = Except.ok " from-mistral" ∧
    continueWriting probeAdapters "Hello" "claude" =
        Except.error "AI generation failed: Unsupported AI provider: claude" ∧
    routeContinueWriting probeAdapters { text := "Hello", provider := some "openai" } =
        Except.ok " from-gemini" ∧
    routeContinueWriting probeAdapters { text := "Hello", provider := some "mistral" } =
        Except.ok " from-gemini" :=
  ⟨rfl, rfl, rfl, rfl, rfl, rfl⟩

/-- C2: with a non-blank content mirror, `CONTINUE_WRITING` moves `idle`
and `error` to `loadingAI` and is ignored in `loadingAI` (state and
context unchanged); with a blank content mirror it is rejected in every
state, leaving state and context unchanged. -/
theorem C2_continue_writing_guard (now : Nat) (ctx : EditorContext) :
    ((jsTrim ctx.editorContent).length > 0 →
      step now MachineState.idle ctx EditorEvent.continueWriting =
          (MachineState.loadingAI, ctx) ∧
      step now MachineState.error ctx EditorEvent.continueWriting =
          (MachineState.loadingAI, ctx) ∧
      step now MachineState.loadingAI ctx EditorEvent.continueWriting =
          (MachineState.loadingAI, ctx)) ∧
    ((jsTrim ctx.editorContent).length = 0 →
      ∀ s, step now s ctx EditorEvent.continueWriting = (s, ctx)) := by
  constructor
  · intro h
    refine ⟨?_, ?_, ?_⟩ <;> simp [step, h]
  · intro h s
    cases s <;> simp [step, h]

/-- Witness for C2 at concrete inputs. -/
theorem C2_continue_writing_guard_witness :
    step 0 MachineState.idle { initialContext with editorContent := "draft" }
        EditorEvent.continueWriting =
      (MachineState.loadingAI, { initialContext with editorContent := "draft" }) ∧
    step 0 MachineState.loadingAI initialContext EditorEvent.continueWriting =
      (MachineState.loadingAI, initialContext) :=
  ⟨((C2_continue_writing_guard 0 { initialContext with editorContent := "draft" }).1
      (by decide)).1,
   (C2_continue_writing_guard 0 initialContext).2 (by decide) MachineState.loadingAI⟩

/-- Folding save-as-new events keeps the content mirror empty and keeps
every saved entry non-blank. -/
theorem saves_fold_invariant (contents : List String) (ctx : EditorContext)
    (h1 : ctx.editorContent = "")
    (h2 : ∀ d ∈ ctx.savedDocuments, (jsTrim d).length ≠ 0) :
    (contents.foldl
        (fun ctx c => (step 0 MachineState.idle ctx (EditorEvent.saveDocument c)).2)
        ctx).editorContent = "" ∧
    ∀ d ∈ (contents.foldl
        (fun ctx c => (step 0 MachineState.idle ctx (EditorEvent.saveDocument c)).2)
        ctx).savedDocuments, (jsTrim d).length ≠ 0 := by
  induction contents generalizing ctx with
  | nil => exact ⟨h1, h2⟩
  | cons c rest ih =>
    simp only [List.foldl_cons]
    apply ih
    · rfl
    · intro d hd
      simp only [step] at hd
      by_cases hc : (jsTrim c).length ≠ 0
      · rw [if_pos hc] at hd
        rcases List.mem_append.mp hd with hmem | hmem
        · exact h2 d hmem
        · simp only [List.mem_singleton] at hmem
          subst hmem
          exact hc
      · rw [if_neg hc] at hd
        exact h2 d hd

/-- C3: along any sequence of save-as-new events from the initial
context, every entry of `savedDocuments` has non-blank trim, and a save
with blank content leaves the whole context (and state) unchanged. -/
theorem C3_blank_save_is_noop (contents : List String) :
    (∀ d ∈ (runSaves contents).savedDocuments, (jsTrim d).length ≠ 0) ∧
    (∀ c, (jsTrim c).length = 0 →
      step 0 MachineState.idle (runSaves contents) (EditorEvent.saveDocument c) =
        (MachineState.idle, runSaves contents)) := by
  have hinv := saves_fold_invariant contents initialContext rfl (by intro d hd; cases hd)
  refine ⟨hinv.2, ?_⟩
  intro c hc
  have hcontent : (runSaves contents).editorContent = "" := hinv.1
  rcases hR : runSaves contents with ⟨ec, ag, er, lt, sd, ap⟩
  rw [hR] at hcontent
  simp only at hcontent
  subst hcontent
  simp [step, hc]

/-- Witness for C3 at a concrete save sequence and a concrete blank save. -/
theorem C3_blank_save_is_noop_witness :
    step 0 MachineState.idle (runSaves ["draft one", "   "]) (EditorEvent.saveDocument " ") =
      (MachineState.idle, runSaves ["draft one", "   "]) :=
  (C3_blank_save_is_noop ["draft one", "   "]).2 " " (by decide)

/-- C10: `SAVE_DOCUMENT` always resets the content mirror to the empty
string; when the saved content is blank nothing is appended, yet the
context still changes whenever the mirror was non-empty, so a blank save
is not a complete no-op. -/
theorem C10_save_always_clears_mirror (now : Nat) (s : MachineState)
    (ctx : EditorContext) (c : String) :
    (step now s ctx (EditorEvent.saveDocument c)).2.editorContent = "" ∧
    ((jsTrim c).length = 0 →
      step now s ctx (EditorEvent.saveDocument c) =
        (s, { ctx with editorContent := "" })) ∧
    ((jsTrim c).length = 0 → ctx.editorContent ≠ "" →
      (step now s ctx (EditorEvent.saveDocument c)).2 ≠ ctx) := by
  refine ⟨rfl, ?_, ?_⟩
  · intro hc
    simp [step, hc]
  · intro hc hne heq
    apply hne
    have := congrArg EditorContext.editorContent heq
    simpa [step] using this.symm

/-- Witness for C10 at a concrete blank save over a non-empty mirror. -/
theorem C10_save_always_clears_mirror_witness :
    step 0 MachineState.idle { initialContext with editorContent := "typed text" }
        (EditorEvent.saveDocument "  ") =
      (MachineState.idle,
        { ({ initialContext with editorContent := "typed text" } : EditorContext) with
            editorContent := "" }) ∧
    (step 0 MachineState.idle { initialContext with editorContent := "typed text" }
        (EditorEvent.saveDocument "  ")).2 ≠
      { initialContext with editorContent := "typed text" } :=
  ⟨(C10_save_always_clears_mirror 0 MachineState.idle
      { initialContext with editorContent := "typed text" } "  ").2.1 (by decide),
   (C10_save_always_clears_mirror 0 MachineState.idle
      { initialContext with editorContent := "typed text" } "  ").2.2 (by decide) (by decide)⟩

/-- C4: deleting a draft removes exactly the entry at the index,
preserving the relative order of the rest, and the active index is
decremented when the deletion is below it, cleared when the deletion hits
it, and unchanged when the deletion is above it. -/
theorem C4_delete_reindexing (docs : List String) (a index : Nat) :
    (handleDeleteSaved docs (some a) index).1 =
        docs.take index ++ docs.drop (index + 1) ∧
    (index < docs.length →
      (handleDeleteSaved docs (some a) index).1.length + 1 = docs.length) ∧
    (index < a → (handleDeleteSaved docs (some a) index).2 = some (a - 1)) ∧
    (index = a → (handleDeleteSaved docs (some a) index).2 = none) ∧
    (a < index → (handleDeleteSaved docs (some a) index).2 = some a) := by
  refine ⟨?_, ?_, ?_, ?_, ?_⟩
  · rw [show (handleDeleteSaved docs (some a) index).1 = removeIdx docs index from rfl,
      removeIdx_eq_eraseIdx, List.eraseIdx_eq_take_drop_succ]
  · intro h
    rw [show (handleDeleteSaved docs (some a) index).1 = removeIdx docs index from rfl,
      removeIdx_eq_eraseIdx]
    exact List.length_eraseIdx_add_one h
  · intro h
    simp [handleDeleteSaved, adjustActiveIndex, Nat.ne_of_lt h, h]
  · intro h
    simp [handleDeleteSaved, adjustActiveIndex, h]
  · intro h
    have h1 : ¬ index = a := by omega
    have h2 : ¬ index < a := by omega
    simp only [handleDeleteSaved, adjustActiveIndex, if_neg h1, if_neg h2]

/-- Witness for C4: the three reindexing cases and the removal at
concrete inputs. -/
theorem C4_delete_reindexing_witness :
    (handleDeleteSaved ["a", "b", "c"] (some 2) 0).2 = some 1 ∧
    (handleDeleteSaved ["a", "b", "c"] (some 2) 2).2 = none ∧
    (handleDeleteSaved ["a", "b", "c"] (some 0) 1).2 = some 0 ∧
    (handleDeleteSaved ["a", "b", "c"] (some 2) 0).1.length + 1 = 3 :=
  ⟨(C4_delete_reindexing ["a", "b", "c"] 2 0).2.2.1 (by decide),
   (C4_delete_reindexing ["a", "b", "c"] 2 2).2.2.2.1 rfl,
   (C4_delete_reindexing ["a", "b", "c"] 0 1).2.2.2.2 (by decide),
   (C4_delete_reindexing ["a", "b", "c"] 2 0).2.1 (by decide)⟩

/-- C5: for a raw adapter continuation (adapter outputs are already
trimmed, captured by `jsTrim c = c`, and non-empty past the empty-output
check), the post-processing emits it unchanged when its trim begins with
one of `.`, `,`, `;`, `:`, `!`, `?`, and otherwise prefixes exactly one
space; and this post-processing is the only transformation between the
adapter result and the service result. -/
theorem C5_punctuation_spacing (adapters : Adapters) (text c : String)
    (htrim : jsTrim c = c) (hne : c ≠ "") :
    (startsWithPunct (jsTrim c) = true → postProcess c = c) ∧
    (startsWithPunct (jsTrim c) = false → postProcess c = " " ++ c) ∧
    ((jsTrim text).length ≠ 0 →
      adapters.gemini (mkPrompt text) = Except.ok c →
      continueWriting adapters text "gemini" = Except.ok (postProcess c)) := by
  rw [htrim]
  refine ⟨?_, ?_, ?_⟩
  · intro hp
    simp [postProcess, hp]
  · intro hp
    simp [postProcess, hne, hp]
  · intro htext hg
    simp [continueWriting, continueWritingAttempt, dispatch, htext, hg, hne]

/-- Witness for C5: the punctuation case, the letter case, and the
service emitting exactly the post-processed adapter output. -/
theorem C5_punctuation_spacing_witness :
    postProcess ", indeed it was." = ", indeed it was." ∧
    postProcess "and the stars shone." = " " ++ "and the stars shone." ∧
    continueWriting probeAdapters "The sky was clear" "gemini" =
      Except.ok (postProcess "from-gemini") :=
  ⟨(C5_punctuation_spacing probeAdapters "x" ", indeed it was."
      (by decide) (by decide)).1 (by decide),
   (C5_punctuation_spacing probeAdapters "x" "and the stars shone."
      (by decide) (by decide)).2.1 (by decide),
   (C5_punctuation_spacing probeAdapters "The sky was clear" "from-gemini"
      (by decide) (by decide)).2.2 (by decide) rfl⟩

/-- C6: blank or whitespace-only input makes `continueWriting` fail with
the empty-input error before any dispatch: the result is the same for
every adapter environment, so no adapter (and hence no network call) is
ever consulted. The raised message is the empty-input message routed
through the catch classifier, which leaves it on the generic branch. -/
theorem C6_blank_input_never_dispatches (adapters adapters2 : Adapters)
    (text provider : String) (h : (jsTrim text).length = 0) :
    continueWriting adapters text provider =
        Except.error
          (classifyError provider "Cannot generate continuation for empty text") ∧
    continueWriting adapters text provider = continueWriting adapters2 text provider ∧
    classifyError provider "Cannot generate continuation for empty text" =
        "AI generation failed: Cannot generate continuation for empty text" := by
  refine ⟨?_, ?_, rfl⟩
  · simp [continueWriting, continueWritingAttempt, h]
  · simp [continueWriting, continueWritingAttempt, h]

/-- Witness for C6 on whitespace-only input over two different adapter
environments. -/
theorem C6_blank_input_never_dispatches_witness :
    continueWriting probeAdapters "   " "openai" =
        Except.error "AI generation failed: Cannot generate continuation for empty text" ∧
    continueWriting probeAdapters "   " "openai" =
        continueWriting offlineAdapters "   " "openai" :=
  ⟨((C6_blank_input_never_dispatches probeAdapters offlineAdapters "   " "openai"
      (by decide)).1).trans
     (by rw [(C6_blank_input_never_dispatches probeAdapters offlineAdapters "   " "openai"
        (by decide)).2.2]),
   (C6_blank_input_never_dispatches probeAdapters offlineAdapters "   " "openai"
      (by decide)).2.1⟩

/-- The relation between the error field and the machine state that the
code actually maintains: `error` is null in `idle` and non-null in
`error`; nothing is promised in `loadingAI`. -/
def errorInvariant (p : MachineState × EditorContext) : Prop :=
  (p.1 = MachineState.idle → p.2.error = none) ∧
  (p.1 = MachineState.error → p.2.error ≠ none)

/-- Every single transition preserves `errorInvariant`. -/
theorem step_preserves_errorInvariant (now : Nat) (s : MachineState)
    (ctx : EditorContext) (e : EditorEvent) (h : errorInvariant (s, ctx)) :
    errorInvariant (step now s ctx e) := by
  obtain ⟨hidle, herr⟩ := h
  cases e <;> cases s <;>
    simp_all [errorInvariant, step] <;>
    split <;> simp_all

/-- Runs from any configuration satisfying `errorInvariant` stay inside
it. -/
theorem runFrom_preserves_errorInvariant (events : List (Nat × EditorEvent))
    (s : MachineState) (ctx : EditorContext) (h : errorInvariant (s, ctx)) :
    errorInvariant (runFrom s ctx events) := by
  induction events generalizing s ctx with
  | nil => exact h
  | cons p rest ih =>
    obtain ⟨now, e⟩ := p
    exact ih _ _ (step_preserves_errorInvariant now s ctx e h)

/-- An event trace that leaves the `error` state through the retry
transition: the failure message survives into `loadingAI`. -/
def retryAfterFailureTrace : List (Nat × EditorEvent) :=
  [(0, EditorEvent.updateContent "x"), (1, EditorEvent.continueWriting),
   (2, EditorEvent.aiError "boom"), (3, EditorEvent.continueWriting)]

/-- C7 counterexample: after a failure, retrying with `CONTINUE_WRITING`
reaches `loadingAI` while `error` is still `some "boom"` — a reachable
state where `lastError` is non-null yet the machine is not in the error
state, so the claimed equivalence fails. -/
theorem C7_counterexample :
    (run retryAfterFailureTrace).1 = MachineState.loadingAI ∧
    (run retryAfterFailureTrace).1 ≠ MachineState.error ∧
    (run retryAfterFailureTrace).2.error = some "boom" := by
  refine ⟨rfl, ?_, rfl⟩
  decide

/-- C7 amended: in every reachable configuration, `error` is null when
the machine is in `idle` and non-null when it is in `error`; the
equivalence fails only in `loadingAI`, which the retry transition out of
`error` enters without clearing the stale message. -/
theorem C7_error_state_invariant (events : List (Nat × EditorEvent)) :
    errorInvariant (run events) := by
  apply runFrom_preserves_errorInvariant
  exact ⟨fun _ => rfl, by simp [initialContext]⟩

/-- An event trace that enters and stays in the `error` state. -/
def failureTrace : List (Nat × EditorEvent) :=
  [(0, EditorEvent.updateContent "x"), (1, EditorEvent.continueWriting),
   (2, EditorEvent.aiError "boom")]

/-- Witness for C7 (amended) at a concrete failing trace. -/
theorem C7_error_state_invariant_witness :
    (run failureTrace).2.error ≠ none :=
  (C7_error_state_invariant failureTrace).2 rfl

/-- C8: from the `error` state, the delayed transition configured at
5000 ms moves the machine to `idle` with `error` cleared, as does an
explicit `CLEAR_ERROR`; and once a new `CONTINUE_WRITING` has left the
`error` state, a later firing of the delayed transition has no effect
(the timer is tied to the `error` state, so exit cancels it). -/
theorem C8_error_autoclear (now now2 : Nat) (ctx : EditorContext) :
    step now MachineState.error ctx (EditorEvent.afterDelay 5000) =
        (MachineState.idle, { ctx with error := none }) ∧
    step now MachineState.error ctx EditorEvent.clearError =
        (MachineState.idle, { ctx with error := none }) ∧
    ((jsTrim ctx.editorContent).length > 0 →
      step now MachineState.error ctx EditorEvent.continueWriting =
          (MachineState.loadingAI, ctx) ∧
      step now2 MachineState.loadingAI ctx (EditorEvent.afterDelay 5000) =
          (MachineState.loadingAI, ctx)) := by
  refine ⟨rfl, rfl, ?_⟩
  intro h
  exact ⟨by simp [step, h], rfl⟩

/-- Witness for C8 on a concrete error-state context. -/
theorem C8_error_autoclear_witness :
    step 7 MachineState.error
        { initialContext with editorContent := "x", error := some "boom" }
        (EditorEvent.afterDelay 5000) =
      (MachineState.idle,
        { ({ initialContext with editorContent := "x", error := some "boom" } :
            EditorContext) with error := none }) ∧
    step 8 MachineState.error
        { initialContext with editorContent := "x", error := some "boom" }
        EditorEvent.continueWriting =
      (MachineState.loadingAI,
        { initialContext with editorContent := "x", error := some "boom" }) :=
  ⟨(C8_error_autoclear 7 0
      { initialContext with editorContent := "x", error := some "boom" }).1,
   ((C8_error_autoclear 8 0
      { initialContext with editorContent := "x", error := some "boom" }).2.2
      (by decide)).1⟩

/-- C9 counterexample: a message carrying the quota indication is raised
as the credential error, not as the quota error, because the credential
substring check runs first in the catch block. -/
theorem C9_counterexample :
    strContains "quota exceeded for this API key" "quota" = true ∧
    classifyError "gemini" "quota exceeded for this API key" =
        "Invalid or missing gemini API key" ∧
    classifyError "gemini" "quota exceeded for this API key" ≠
        "API quota exceeded. Please try again later" := by
  refine ⟨rfl, rfl, ?_⟩
  decide

/-- C9 amended: the catch classifier re-expresses an adapter failure by
message-substring inspection with a fixed precedence — credential
indications first (provider-qualified message), then quota, then
rate-limit, and any message matching none of them becomes the generic
failure carrying the underlying message. -/
theorem C9_error_taxonomy (provider msg : String) :
    ((strContains msg "API key" || strContains msg "API_KEY") = true →
      classifyError provider msg = "Invalid or missing " ++ provider ++ " API key") ∧
    ((strContains msg "API key" || strContains msg "API_KEY") = false →
      strContains msg "quota" = true →
      classifyError provider msg = "API quota exceeded. Please try again later") ∧
    ((strContains msg "API key" || strContains msg "API_KEY") = false →
      strContains msg "quota" = false →
      strContains msg "rate limit" = true →
      classifyError provider msg = "Rate limit exceeded. Please wait a moment") ∧
    ((strContains msg "API key" || strContains msg "API_KEY") = false →
      strContains msg "quota" = false →
      strContains msg "rate limit" = false →
      classifyError provider msg = "AI generation failed: " ++ msg) := by
  refine ⟨?_, ?_, ?_, ?_⟩ <;> intros <;> simp_all [classifyError]

/-- Witness for C9 on the four message categories. -/
theorem C9_error_taxonomy_witness :
    classifyError "gemini" "GEMINI_API_KEY is not configured" =
        "Invalid or missing gemini API key" ∧
    classifyError "openai" "insufficient quota for this request" =
        "API quota exceeded. Please try again later" ∧
    classifyError "mistral" "hit the rate limit, slow down" =
        "Rate limit exceeded. Please wait a moment" ∧
    classifyError "gemini" "socket hang up" =
        "AI generation failed: " ++ "socket hang up" :=
  ⟨(C9_error_taxonomy "gemini" "GEMINI_API_KEY is not configured").1 (by decide),
   (C9_error_taxonomy "openai" "insufficient quota for this request").2.1
      (by decide) (by decide),
   (C9_error_taxonomy "mistral" "hit the rate limit, slow down").2.2.1
      (by decide) (by decide) (by decide),
   (C9_error_taxonomy "gemini" "socket hang up").2.2.2
      (by decide) (by decide) (by decide)⟩
